import Mathlib

/-!
Verification of the F1 Hyperspeed dashboard (Time-Series-Analysis-Using-F1-data).

The frontend sources (`frontend/src/App.js`, `frontend/src/services/F1DataService.js`)
are embedded directly; JavaScript numbers are modelled as `ℚ`, JavaScript objects as
Lean structures with `Option` fields for possibly-absent members, and the
non-deterministic / transcendental library functions (`Math.random`, `Math.sin`,
`Math.sqrt`) as oracle parameters of type `ℕ → ℚ` / `ℚ → ℚ`.

The real-time effect engine (`frontend/src/utils/Hyperspeed.js` and its preset
table) is not part of the available sources; the definitions below that concern
it are modelled from the specification's description of the Parameter Store,
Interpolator, Geometry Pool, Render Loop lifecycle and Configuration Loader, and
are marked `Modelled from the spec:` in their doc comments.
-/

namespace F1Spec

/-! ## JavaScript helpers -/

/-- A JavaScript value that is either a number or a boolean (the telemetry
`brake` channel mixes the two: real data uses booleans, other sources numbers). -/
inductive JSVal where
  | num (q : ℚ)
  | bool (b : Bool)
deriving DecidableEq, Repr

/-- JavaScript `x || d` for a possibly-absent numeric field: the default is used
when the field is `undefined` or falsy (`0`). -/
def jsOrDefault (v : Option ℚ) (d : ℚ) : ℚ :=
  match v with
  | none => d
  | some x => if x = 0 then d else x

/-- JavaScript `String.prototype.toLowerCase` (ASCII case folding suffices for
the keyboard keys the application inspects). -/
def jsToLower (s : String) : String :=
  String.mk (s.data.map Char.toLower)

/-! ## App.js : telemetry-driven effect options (`handleTelemetryDataChange`) -/

/-- The statistics object as read by `handleTelemetryDataChange` in
`frontend/src/App.js`: each field may be absent. -/
structure StatsView where
  max_speed : Option ℚ
  throttle_percentage : Option ℚ
  top_gear : Option ℚ
deriving DecidableEq, Repr

/-- A telemetry payload as far as the handler inspects it: it may or may not
carry a `statistics` object. -/
structure TelemetryPayload where
  statistics : Option StatsView
deriving DecidableEq, Repr

/-- The Hyperspeed effect options: the four fields the telemetry handler
rewrites, plus all remaining preset options (kept abstract as a key/value list,
since the JS spread `{...prev, ...}` copies them unchanged). -/
structure EffectOptions where
  speed : ℚ
  density : ℚ
  colorIntensity : ℚ
  distortionLevel : ℚ
  rest : List (String × ℚ)
deriving DecidableEq, Repr

/-- `handleTelemetryDataChange` from `frontend/src/App.js` (lines 196-223),
restricted to its effect on the effect-options state: when the payload has a
`statistics` object it computes `speedRatio = (max_speed || 300) / 350` and
`aggressionRatio = (throttle_percentage || 50) / 100` and rewrites the four
effect fields via the functional `setEffectOptions` update; otherwise the
options are left alone. -/
def handleTelemetryDataChange (data : TelemetryPayload) (prev : EffectOptions) :
    EffectOptions :=
  match data.statistics with
  | none => prev
  | some st =>
      let speedRatio := jsOrDefault st.max_speed 300 / 350
      let aggressionRatio := jsOrDefault st.throttle_percentage 50 / 100
      { prev with
        speed := 0.3 + speedRatio * 1.2
        density := 50 + aggressionRatio * 100
        colorIntensity := 0.5 + speedRatio * 0.5
        distortionLevel := aggressionRatio * 0.3 }

/-! ## App.js : keyboard controls (`handleKeyPress`) -/

/-- The three UI visibility flags of `App.js` (`showUI`, `showTimeSeries`,
`showInfoPanel`). -/
structure UIFlags where
  showUI : Bool
  showTimeSeries : Bool
  showInfoPanel : Bool
deriving DecidableEq, Repr

/-- `handleKeyPress` from `frontend/src/App.js` (lines 227-245): switches on
`event.key.toLowerCase()`; `h` toggles the UI flag, `t` the time-series flag,
`i` the info-panel flag, `escape` forces UI and info panel visible, and any
other key is ignored. -/
def handleKeyPress (key : String) (f : UIFlags) : UIFlags :=
  let k := jsToLower key
  if k = "h" then { f with showUI := !f.showUI }
  else if k = "t" then { f with showTimeSeries := !f.showTimeSeries }
  else if k = "i" then { f with showInfoPanel := !f.showInfoPanel }
  else if k = "escape" then { f with showUI := true, showInfoPanel := true }
  else f

/-! ## Parameter Store and Interpolator

Modelled from the spec: the effect engine (`frontend/src/utils/Hyperspeed.js`)
is not among the available sources, so the Parameter Store of spec §4.1 and the
Interpolator of §4.2 are taken from the specification's own contract:
an entry is `(current, target, smoothing-rate)`, `setTarget` overwrites the
target, and `tick(deltaTime)` advances
`current += (target - current) * min(1, rate * deltaTime)`. -/

/-- Modelled from the spec: one Parameter Store entry
(`current`, `target`, `smoothing-rate`), §3 and §4.1; `Hyperspeed.js` is not in
the sources. -/
structure ParamEntry where
  current : ℚ
  target : ℚ
  rate : ℚ
deriving DecidableEq, Repr

/-- Modelled from the spec (§4.1): `setTarget` overwrites the target of an
entry, leaving `current` and the smoothing rate alone. -/
def setTargetE (v : ℚ) (e : ParamEntry) : ParamEntry :=
  { e with target := v }

/-- Modelled from the spec (§4.1): one `tick(deltaTime)` step of the
Interpolator on a single entry,
`current += (target - current) * min(1, rate * deltaTime)`. -/
def tickEntry (dt : ℚ) (e : ParamEntry) : ParamEntry :=
  { e with current := e.current + (e.target - e.current) * min 1 (e.rate * dt) }

/-- Iterated ticks with a per-tick `deltaTime` schedule `dts`. -/
def tickSeq (dts : ℕ → ℚ) (e : ParamEntry) : ℕ → ParamEntry
  | 0 => e
  | n + 1 => tickEntry (dts n) (tickSeq dts e n)

/-! ## Geometry Pool / Recycler

Modelled from the spec (§3, §4.3): a fixed arena of pooled road segments and
light-streak particles; a tick advances every active element by `speed·dt` and
teleports elements that crossed the far boundary back by the travel range with
a fresh colour; a density change only flips `active` flags (activating
previously dormant elements at randomized positions). -/

/-- Modelled from the spec (§2, §3): a pooled element is either a road/track
segment or a light-streak particle. -/
inductive ElemKind where
  | segment
  | particle
deriving DecidableEq, Repr

/-- Modelled from the spec (§3 "Pooled Segment" / "Particle"): position along
the travel axis, lane offset, colour reference and the `active` lifecycle
flag. -/
structure PoolElem where
  kind : ElemKind
  pos : ℚ
  lane : ℚ
  colorRef : ℕ
  active : Bool
deriving DecidableEq, Repr

/-- Modelled from the spec (§4.3): the fixed visible-range geometry of the
tunnel — the far boundary and the length of the travel range an element is
teleported back by when recycled. -/
structure PoolEnv where
  farBoundary : ℚ
  travelRange : ℚ
deriving DecidableEq, Repr

/-- Modelled from the spec (§4.3): one repositioning pass on a single element —
dormant elements are skipped; an active element advances by `speed·dt` and, if
it crossed the far boundary, is teleported back by the travel range with a
freshly chosen colour (the choice modelled by the oracle `newColor`). -/
def recycleElem (env : PoolEnv) (speed dt : ℚ) (newColor : ℕ → ℕ)
    (el : PoolElem) : PoolElem :=
  if el.active then
    let p := el.pos + speed * dt
    if env.farBoundary < p then
      { el with pos := p - env.travelRange, colorRef := newColor el.colorRef }
    else
      { el with pos := p }
  else el

/-- Modelled from the spec (§4.3): the per-tick repositioning pass of the
Geometry Pool — a pure `map`, no allocation. -/
def tickPool (env : PoolEnv) (speed dt : ℚ) (newColor : ℕ → ℕ)
    (pool : List PoolElem) : List PoolElem :=
  pool.map (recycleElem env speed dt newColor)

/-- Modelled from the spec (§4.3): a runtime density change marks the first `k`
pool elements active and the rest dormant; a previously dormant element that
becomes active is placed at a randomized position (oracle `randPos`) spread
over the visible range. Only flags and positions change — never the element
count. -/
def setDensity (k : ℕ) (randPos : ℕ → ℚ) (pool : List PoolElem) :
    List PoolElem :=
  pool.mapIdx (fun i el =>
    if i < k then
      (if el.active then el else { el with active := true, pos := randPos i })
    else { el with active := false })

/-- Modelled from the spec (§4.3): the events that touch the Geometry Pool
during a run — repositioning ticks and density changes. -/
inductive PoolOp where
  | tickOp (speed dt : ℚ) (newColor : ℕ → ℕ)
  | densityOp (k : ℕ) (randPos : ℕ → ℚ)

/-- Apply one pool event. -/
def applyPoolOp (env : PoolEnv) (pool : List PoolElem) : PoolOp → List PoolElem
  | .tickOp speed dt newColor => tickPool env speed dt newColor pool
  | .densityOp k randPos => setDensity k randPos pool

/-- Run a sequence of pool events. -/
def runPool (env : PoolEnv) (ops : List PoolOp) (pool : List PoolElem) :
    List PoolElem :=
  ops.foldl (applyPoolOp env) pool

/-- Modelled from the spec (§3, §4.3): pool initialization creates the whole
arena once — `n` elements (alternating segments and particles), the first
`activeCount` of them active, positions spread by `spread`. -/
def initPool (n activeCount : ℕ) (spread : ℕ → ℚ) : List PoolElem :=
  (List.range n).map (fun i =>
    { kind := if i % 2 = 0 then ElemKind.segment else ElemKind.particle
      pos := spread i
      lane := 0
      colorRef := 0
      active := decide (i < activeCount) })

/-! ## Engine state, live updates and lifecycle

Modelled from the spec (§2, §4.4, §4.5, §5): the engine owns a Parameter
Store (a keyed list of entries), the Geometry Pool, the camera, a lifecycle
phase and optional GPU-backed resources. Input events and telemetry updates go
through `setTarget` only. -/

/-- Modelled from the spec (§3 "Camera State"): position along the travel axis
plus a lateral offset. -/
structure Camera where
  pos : ℚ
  lateral : ℚ
deriving DecidableEq, Repr

/-- Modelled from the spec (§4.5): the render-loop lifecycle phases. -/
inductive Phase where
  | Uninitialized
  | Running
  | Paused
  | Disposed
deriving DecidableEq, Repr

/-- Modelled from the spec (§2, §4.5, §4.7): the whole engine state — the
Parameter Store, the Geometry Pool, the camera, the lifecycle phase and the
optional GPU-backed resource handle. -/
structure EngineState where
  phase : Phase
  params : List (String × ParamEntry)
  pool : List PoolElem
  camera : Camera
  resources : Option ℕ
deriving DecidableEq, Repr

/-- Modelled from the spec (§4.1): `setTarget(name, value)` on the engine's
Parameter Store — overwrites the target of the named entry; an unrecognized
name changes nothing (fails silently). -/
def setTargetS (name : String) (v : ℚ) (s : EngineState) : EngineState :=
  { s with params := s.params.map (fun p =>
      if p.1 = name then (p.1, setTargetE v p.2) else p) }

/-- A batch of live `{parameterName, value}` updates (§6), applied in order via
`setTargetS`. -/
def applyUpdates (us : List (String × ℚ)) (s : EngineState) : EngineState :=
  us.foldl (fun st u => setTargetS u.1 u.2 st) s

/-- Modelled from the spec (§2 data flow) with the concrete formulas of
`handleTelemetryDataChange` (`frontend/src/App.js`): an external telemetry
update writes the four derived effect parameters as targets. -/
def telemetryUpdate (st : StatsView) (s : EngineState) : EngineState :=
  applyUpdates
    [("speed", 0.3 + (jsOrDefault st.max_speed 300 / 350) * 1.2),
     ("density", 50 + (jsOrDefault st.throttle_percentage 50 / 100) * 100),
     ("colorIntensity", 0.5 + (jsOrDefault st.max_speed 300 / 350) * 0.5),
     ("distortionLevel", (jsOrDefault st.throttle_percentage 50 / 100) * 0.3)]
    s

/-- Modelled from the spec (§3, §4.4): the Input State Machine's intent
classification. -/
inductive InputIntent where
  | Idle
  | Accelerating
  | Cruising
  | Decelerating
deriving DecidableEq, Repr

/-- Modelled from the spec (§4.4, §8 scenario): the target speed each intent
state maps to — the boosted speed while pressing/cruising, the baseline
otherwise. -/
def intentTargetSpeed (baseline boosted : ℚ) : InputIntent → ℚ
  | .Accelerating => boosted
  | .Cruising => boosted
  | .Idle => baseline
  | .Decelerating => baseline

/-- Modelled from the spec (§4.4): an input event writes the intent's target
speed into the Parameter Store — nothing else. -/
def inputUpdate (baseline boosted : ℚ) (i : InputIntent) (s : EngineState) :
    EngineState :=
  setTargetS "speed" (intentTargetSpeed baseline boosted i) s

/-- The current values of the Parameter Store, keyed by name. -/
def currents (s : EngineState) : List (String × ℚ) :=
  s.params.map (fun p => (p.1, p.2.current))

/-- The smoothing rates of the Parameter Store, keyed by name. -/
def rates (s : EngineState) : List (String × ℚ) :=
  s.params.map (fun p => (p.1, p.2.rate))

/-- An engine-state transformer writes only Parameter Store targets: it leaves
every current value, every smoothing rate, the geometry pool, the camera, the
lifecycle phase and the resource handle untouched. -/
def WritesOnlyTargets (f : EngineState → EngineState) : Prop :=
  ∀ s : EngineState,
    currents (f s) = currents s ∧ rates (f s) = rates s ∧
    (f s).pool = s.pool ∧ (f s).camera = s.camera ∧
    (f s).phase = s.phase ∧ (f s).resources = s.resources

/-- Advance every Parameter Store entry by one interpolation tick (§4.1). -/
def tickStore (dt : ℚ) (params : List (String × ParamEntry)) :
    List (String × ParamEntry) :=
  params.map (fun p => (p.1, tickEntry dt p.2))

/-- The current value of the `speed` parameter (0 when absent). -/
def speedOf (s : EngineState) : ℚ :=
  ((s.params.lookup "speed").map ParamEntry.current).getD 0

/-- Modelled from the spec (§4.5, §5): one render-loop tick. While `Running`
it requires the GPU-backed resources (a missing handle is a resource-access
error), advances the Parameter Store, runs the Geometry Pool repositioning
pass and moves the camera; in every other phase — in particular `Disposed` —
the residual callback is a no-op that returns the state unchanged. -/
def tickEngine (env : PoolEnv) (newColor : ℕ → ℕ) (dt : ℚ) (s : EngineState) :
    Except String EngineState :=
  match s.phase with
  | .Running =>
      match s.resources with
      | none => .error "resource access"
      | some _ =>
          let spd := speedOf s
          .ok { s with
                params := tickStore dt s.params
                pool := tickPool env spd dt newColor s.pool
                camera := { s.camera with pos := s.camera.pos + spd * dt } }
  | _ => .ok s

/-- Modelled from the spec (§4.5, §4.7): `dispose()` — the phase becomes
`Disposed` and the GPU-backed resources are released. -/
def dispose (s : EngineState) : EngineState :=
  { s with phase := Phase.Disposed, resources := none }

/-- Run a sequence of scheduled frame callbacks (ticks), stopping at the first
error. -/
def runTicks (env : PoolEnv) (newColor : ℕ → ℕ) (dts : List ℚ)
    (s : EngineState) : Except String EngineState :=
  dts.foldlM (fun st dt => tickEngine env newColor dt st) s

/-! ## Preset / Configuration Loader

Modelled from the spec (§4.6, §6, §7a): the recognized options, their
documented defaults (`speed = 1.0` and `density = 50` from the §8 baseline
preset; the remaining defaults and ranges fixed here), and a loader that
defaults every missing or out-of-range value and ignores unknown keys —
loading is total and never fails. -/

/-- The internal configuration schema of the engine (§6): base speed, particle
density, distortion amount, camera field of view, ramp-up/down durations. -/
structure HyperConfig where
  speed : ℚ
  density : ℚ
  distortion : ℚ
  fov : ℚ
  rampUp : ℚ
  rampDown : ℚ
deriving DecidableEq, Repr

/-- Documented range of the base speed: nonnegative. -/
def speedInRange (v : ℚ) : Bool := decide (0 ≤ v)

/-- Documented range of the particle density: nonnegative. -/
def densityInRange (v : ℚ) : Bool := decide (0 ≤ v)

/-- Documented range of the distortion amount: within `[0, 1]`. -/
def distortionInRange (v : ℚ) : Bool := decide (0 ≤ v ∧ v ≤ 1)

/-- Documented range of the camera field of view: within `(0, 180]`. -/
def fovInRange (v : ℚ) : Bool := decide (0 < v ∧ v ≤ 180)

/-- Documented range of the ramp durations: positive. -/
def rampInRange (v : ℚ) : Bool := decide (0 < v)

/-- The option names the loader recognizes; every other key is ignored. -/
def recognizedKeys : List String :=
  ["speed", "density", "distortion", "fov", "rampUp", "rampDown"]

/-- Modelled from the spec (§4.6): for one option, either the supplied value
(when within its documented range) or the documented default. -/
def pickOption (input : List (String × ℚ)) (key : String) (dflt : ℚ)
    (inRange : ℚ → Bool) : ℚ :=
  match input.lookup key with
  | none => dflt
  | some v => if inRange v then v else dflt

/-- Modelled from the spec (§4.6, §7a): the Preset/Configuration Loader —
total, per-option defaulting, unknown keys never consulted. The documented
defaults are `speed = 1`, `density = 50`, `distortion = 0`, `fov = 90`,
`rampUp = rampDown = 1`. -/
def loadConfig (input : List (String × ℚ)) : HyperConfig :=
  { speed := pickOption input "speed" 1 speedInRange
    density := pickOption input "density" 50 densityInRange
    distortion := pickOption input "distortion" 0 distortionInRange
    fov := pickOption input "fov" 90 fovInRange
    rampUp := pickOption input "rampUp" 1 rampInRange
    rampDown := pickOption input "rampDown" 1 rampInRange }

/-- A configuration is valid when every field is within its documented
range. -/
def validConfig (c : HyperConfig) : Bool :=
  speedInRange c.speed && densityInRange c.density &&
    distortionInRange c.distortion && fovInRange c.fov &&
    rampInRange c.rampUp && rampInRange c.rampDown

/-! ## F1DataService.js : telemetry fetching and mock generation

Embedded from `frontend/src/services/F1DataService.js`. JavaScript numbers are
`ℚ`; `Math.random` is the oracle `rnd : ℕ → ℚ` (one index per call site),
`Math.sin` and `Math.sqrt` the oracles `sinO, sqrtO : ℚ → ℚ`. -/

/-- The `tire_info` object built by `generateMockTelemetryData`. -/
structure TireInfo where
  compound : String
  fresh_tyre : Bool
  tyre_life : ℚ
  stint_number : ℚ
deriving DecidableEq, Repr

/-- The `weather_info` object built by `generateMockTelemetryData`. -/
structure WeatherInfo where
  air_temp : ℚ
  track_temp : ℚ
  humidity : ℚ
  pressure : ℚ
  wind_speed : ℚ
  wind_direction : ℚ
  rainfall : Bool
deriving DecidableEq, Repr

/-- The `track_status` object built by `generateMockTelemetryData`. -/
structure TrackStatus where
  track_status : ℚ
  is_personal_best : Bool
  position : ℚ
  pit_out_time : Bool
  pit_in_time : Bool
deriving DecidableEq, Repr

/-- The `sector_times` object built by `generateMockTelemetryData`. -/
structure SectorTimes where
  sector_1 : ℚ
  sector_2 : ℚ
  sector_3 : ℚ
deriving DecidableEq, Repr

/-- The `track_info` object appended by `generateMockTelemetryData`. -/
structure TrackInfo where
  name : String
  country : String
  length : ℚ
deriving DecidableEq, Repr

/-- A telemetry object as handled by `F1DataService`: every member may be
absent (`undefined`) in a backend response; the statistics object is a
key/value list; the `brake` channel mixes booleans (real F1 data) and
numbers. -/
structure TelemetryJS where
  driver : Option String
  lap_time : Option ℚ
  lap_number : Option ℚ
  time : Option (List ℚ)
  distance : Option (List ℚ)
  speed : Option (List ℚ)
  throttle : Option (List ℚ)
  brake : Option (List JSVal)
  gear : Option (List ℚ)
  rpm : Option (List ℚ)
  drs : Option (List ℚ)
  tire_info : Option TireInfo
  weather_info : Option WeatherInfo
  track_status : Option TrackStatus
  sector_times : Option SectorTimes
  statistics : Option (List (String × ℚ))
  track_info : Option TrackInfo
deriving DecidableEq, Repr

/-- Settled promises (`Except` values) can be compared for equality. -/
instance {ε α : Type} [DecidableEq ε] [DecidableEq α] :
    DecidableEq (Except ε α) := fun x y =>
  match x, y with
  | .ok a, .ok b =>
      match decEq a b with
      | isTrue h => isTrue (by rw [h])
      | isFalse h => isFalse (fun hc => h (Except.ok.inj hc))
  | .error a, .error b =>
      match decEq a b with
      | isTrue h => isTrue (by rw [h])
      | isFalse h => isFalse (fun hc => h (Except.error.inj hc))
  | .ok _, .error _ => isFalse (fun hc => Except.noConfusion hc)
  | .error _, .ok _ => isFalse (fun hc => Except.noConfusion hc)

/-- JavaScript `list.reduce((a, b) => a + b, 0)`. -/
def listSum (l : List ℚ) : ℚ := l.foldl (· + ·) 0

/-- JavaScript `Math.max(...l)` on a nonempty list (`0` stands in for the
empty case, which the service never meaningfully hits). -/
def listMax : List ℚ → ℚ
  | [] => 0
  | h :: t => t.foldl max h

/-- JavaScript `Math.min(...l)` on a nonempty list. -/
def listMin : List ℚ → ℚ
  | [] => 0
  | h :: t => t.foldl min h

/-- The gear-change count of `calculateEnhancedStatistics`: the number of
adjacent pairs with `gear[i] !== gear[i-1]`. -/
def countGearChanges : List ℚ → ℕ
  | a :: b :: t => (if b ≠ a then 1 else 0) + countGearChanges (b :: t)
  | _ => 0

/-- `calculateStandardDeviation` from `F1DataService.js` (lines 173-178), with
`Math.sqrt` as the oracle `sqrtO`. -/
def calculateStandardDeviation (sqrtO : ℚ → ℚ) (values : List ℚ) : ℚ :=
  let mean := listSum values / (values.length : ℚ)
  let squaredDiffs := values.map (fun value => (value - mean) ^ 2)
  let avgSquaredDiff := listSum squaredDiffs / (squaredDiffs.length : ℚ)
  sqrtO avgSquaredDiff

/-- The brake filter of `calculateEnhancedStatistics`:
`b === true || b > 50`. -/
def brakeOn : JSVal → Bool
  | .bool b => b
  | .num q => decide (50 < q)

/-- `calculateEnhancedStatistics` from `F1DataService.js` (lines 135-168).
When one of the `speed`, `throttle`, `brake` channels is absent it returns the
empty object; otherwise it destructures `gear` and `rpm` as well, and spreading
an absent `gear`/`rpm` throws a `TypeError` (modelled as `.error`), which a
caller's `try` block turns into the mock fallback. -/
def calculateEnhancedStatistics (sqrtO : ℚ → ℚ) (t : TelemetryJS) :
    Except String (List (String × ℚ)) :=
  if t.speed.isNone || t.throttle.isNone || t.brake.isNone then .ok []
  else
    match t.gear, t.rpm with
    | some gear, some rpm =>
        let speed := t.speed.getD []
        let throttle := t.throttle.getD []
        let brake := t.brake.getD []
        let fullThrottleTime :=
          ((throttle.filter (fun x => decide (99 ≤ x))).length : ℚ) /
            (throttle.length : ℚ) * 100
        let brakingTime :=
          ((brake.filter brakeOn).length : ℚ) / (brake.length : ℚ) * 100
        let coastingTime := 100 - fullThrottleTime - brakingTime
        .ok [("max_speed", listMax speed),
             ("avg_speed", listSum speed / (speed.length : ℚ)),
             ("min_speed", listMin speed),
             ("speed_std", calculateStandardDeviation sqrtO speed),
             ("top_gear", listMax gear),
             ("max_rpm", listMax rpm),
             ("avg_rpm", listSum rpm / (rpm.length : ℚ)),
             ("throttle_percentage", fullThrottleTime),
             ("brake_percentage", brakingTime),
             ("coast_percentage", coastingTime),
             ("gear_changes", (countGearChanges gear : ℚ)),
             ("drs_percentage",
               match t.drs with
               | some drs =>
                   ((drs.filter (fun d => decide (0 < d))).length : ℚ) /
                     (drs.length : ℚ) * 100
               | none => 0)]
    | _, _ => .error "TypeError"

/-- The JavaScript double closest to `Math.PI`. -/
def jsPI : ℚ := 3.141592653589793

/-- The Monaco track profile of `generateMockTelemetryData`. -/
def monacoMaxSpeed : ℚ := 290

/-- Monaco lap time of the mock track profile (83.5 s). -/
def monacoLapTime : ℚ := 167/2

/-- `points = 200` data points per mock lap. -/
def mockPoints : ℕ := 200

/-- The mock speed of loop iteration `i` before clamping: the sector-dependent
sinusoidal profile plus the `(Math.random() - 0.5) * 10` noise (random call
slot `4·i`). -/
def mockRawSpeed (rnd : ℕ → ℚ) (sinO : ℚ → ℚ) (i : ℕ) : ℚ :=
  let progress : ℚ := (i : ℚ) / (mockPoints : ℚ)
  let base :=
    if progress < 0.2 then
      monacoMaxSpeed * (0.7 + 0.3 * sinO (progress * jsPI * 10))
    else if progress < 0.4 then
      monacoMaxSpeed * (0.3 + 0.2 * sinO (progress * jsPI * 15))
    else if progress < 0.6 then
      monacoMaxSpeed * (0.5 + 0.3 * sinO (progress * jsPI * 8))
    else if progress < 0.8 then
      monacoMaxSpeed * (0.6 + 0.2 * sinO (progress * jsPI * 12))
    else
      monacoMaxSpeed * (0.4 + 0.4 * sinO (progress * jsPI * 6))
  base + (rnd (4 * i) - 0.5) * 10

/-- The pushed mock speed sample: `Math.max(50, speed)`. -/
def mockSpeedAt (rnd : ℕ → ℚ) (sinO : ℚ → ℚ) (i : ℕ) : ℚ :=
  max 50 (mockRawSpeed rnd sinO i)

/-- `speedChange`: the unclamped local speed minus the previously pushed
(clamped) sample, `0` at `i = 0`. -/
def mockSpeedChange (rnd : ℕ → ℚ) (sinO : ℚ → ℚ) (i : ℕ) : ℚ :=
  if i = 0 then 0
  else mockRawSpeed rnd sinO i - mockSpeedAt rnd sinO (i - 1)

/-- The pushed mock throttle sample:
`Math.max(0, Math.min(100, 70 + speedChange * 3 + (Math.random() - 0.5) * 20))`
(random call slot `4·i + 1`). -/
def mockThrottleAt (rnd : ℕ → ℚ) (sinO : ℚ → ℚ) (i : ℕ) : ℚ :=
  max 0 (min 100
    (70 + mockSpeedChange rnd sinO i * 3 + (rnd (4 * i + 1) - 0.5) * 20))

/-- The pushed mock brake sample:
`speedChange < -5 ? true : (Math.random() < 0.05)` (random call slot
`4·i + 2`). -/
def mockBrakeAt (rnd : ℕ → ℚ) (sinO : ℚ → ℚ) (i : ℕ) : JSVal :=
  if mockSpeedChange rnd sinO i < -5 then JSVal.bool true
  else JSVal.bool (decide (rnd (4 * i + 2) < 0.05))

/-- The pushed mock gear sample:
`Math.max(1, Math.min(8, Math.floor(speed / 45) + 1))`. -/
def mockGearAt (rnd : ℕ → ℚ) (sinO : ℚ → ℚ) (i : ℕ) : ℚ :=
  ((max 1 (min 8 (⌊mockRawSpeed rnd sinO i / 45⌋ + 1)) : ℤ) : ℚ)

/-- The pushed mock rpm sample: `6000 + (speed / maxSpeed) * 6000` plus the
`(Math.random() - 0.5) * 500` noise (random call slot `4·i + 3`). -/
def mockRpmAt (rnd : ℕ → ℚ) (sinO : ℚ → ℚ) (i : ℕ) : ℚ :=
  6000 + mockRawSpeed rnd sinO i / monacoMaxSpeed * 6000 +
    (rnd (4 * i + 3) - 0.5) * 500

/-- The pushed mock DRS sample:
`(progress < 0.25 || progress > 0.75) && speed > 200 ? 1 : 0`. -/
def mockDrsAt (rnd : ℕ → ℚ) (sinO : ℚ → ℚ) (i : ℕ) : ℚ :=
  if ((i : ℚ) / (mockPoints : ℚ) < 0.25 ∨ 0.75 < (i : ℚ) / (mockPoints : ℚ)) ∧
      200 < mockRawSpeed rnd sinO i
  then 1 else 0

/-- `generateMockTelemetryData` from `F1DataService.js` (lines 230-340): the
Monaco track profile, 200 samples per channel, the random tire/weather/track
headers (random call slots from 800 up), then
`telemetryData.statistics = calculateEnhancedStatistics(telemetryData)` and the
appended `track_info`. -/
def generateMockTelemetryData (rnd : ℕ → ℚ) (sinO sqrtO : ℚ → ℚ)
    (driverCode _sessionType : String) : TelemetryJS :=
  let base : TelemetryJS :=
    { driver := some driverCode
      lap_time := some monacoLapTime
      lap_number := some (((⌊rnd 800 * 20⌋ : ℤ) : ℚ) + 1)
      time := some ((List.range mockPoints).map fun (i : ℕ) =>
        (i : ℚ) * (monacoLapTime / (mockPoints : ℚ)))
      distance := some ((List.range mockPoints).map fun (i : ℕ) =>
        ((i : ℚ) / (mockPoints : ℚ)) * 3337)
      speed := some ((List.range mockPoints).map (mockSpeedAt rnd sinO))
      throttle := some ((List.range mockPoints).map (mockThrottleAt rnd sinO))
      brake := some ((List.range mockPoints).map (mockBrakeAt rnd sinO))
      gear := some ((List.range mockPoints).map (mockGearAt rnd sinO))
      rpm := some ((List.range mockPoints).map (mockRpmAt rnd sinO))
      drs := some ((List.range mockPoints).map (mockDrsAt rnd sinO))
      tire_info := some
        { compound := ["SOFT", "MEDIUM", "HARD"].getD (⌊rnd 801 * 3⌋).toNat "SOFT"
          fresh_tyre := decide (0.7 < rnd 802)
          tyre_life := ((⌊rnd 803 * 15⌋ : ℤ) : ℚ)
          stint_number := ((⌊rnd 804 * 3⌋ : ℤ) : ℚ) + 1 }
      weather_info := some
        { air_temp := 22.5 + (rnd 805 - 0.5) * 5
          track_temp := 35.2 + (rnd 806 - 0.5) * 8
          humidity := 65 + (rnd 807 - 0.5) * 20
          pressure := 1013.25
          wind_speed := 5 + rnd 808 * 10
          wind_direction := rnd 809 * 360
          rainfall := decide (0.85 < rnd 810) }
      track_status := some
        { track_status := 1
          is_personal_best := decide (0.7 < rnd 811)
          position := ((⌊rnd 812 * 20⌋ : ℤ) : ℚ) + 1
          pit_out_time := false
          pit_in_time := false }
      sector_times := some
        { sector_1 := 28.123 + (rnd 813 - 0.5) * 2
          sector_2 := 31.456 + (rnd 814 - 0.5) * 2
          sector_3 := 24.877 + (rnd 815 - 0.5) * 2 }
      statistics := none
      track_info := none }
  { base with
    statistics := (calculateEnhancedStatistics sqrtO base).toOption
    track_info := some { name := "Monaco", country := "Monaco", length := 3337 } }

/-- JavaScript truthiness of
`telemetryData.statistics && telemetryData.statistics.throttle_percentage`:
the statistics object exists (any object, even empty, is truthy) and its
`throttle_percentage` member is present and nonzero. -/
def statisticsTruthyThrottle (stats : Option (List (String × ℚ))) : Bool :=
  match stats with
  | none => false
  | some s =>
      match s.lookup "throttle_percentage" with
      | none => false
      | some v => decide (v ≠ 0)

/-- `getTelemetryData` from `F1DataService.js` (lines 112-130): on a rejected
request it resolves with the mock; on a response whose statistics are missing
or lack a truthy `throttle_percentage` it installs
`calculateEnhancedStatistics` — and if that enhancement throws (absent
`gear`/`rpm` spread), the surrounding `try` also falls back to the mock;
otherwise the response is passed through. The returned `Except` is the settled
promise: `.ok` is resolution, `.error` would be rejection. -/
def getTelemetryData (rnd : ℕ → ℚ) (sinO sqrtO : ℚ → ℚ)
    (driverCode sessionType : String) (backend : Except String TelemetryJS) :
    Except String TelemetryJS :=
  match backend with
  | .error _ =>
      .ok (generateMockTelemetryData rnd sinO sqrtO driverCode sessionType)
  | .ok t =>
      if !statisticsTruthyThrottle t.statistics then
        match calculateEnhancedStatistics sqrtO t with
        | .ok s => .ok { t with statistics := some s }
        | .error _ =>
            .ok (generateMockTelemetryData rnd sinO sqrtO driverCode sessionType)
      else .ok t

/-- A telemetry object carries a populated (nonempty) statistics object. -/
def hasPopulatedStatistics (t : TelemetryJS) : Bool :=
  match t.statistics with
  | some (_ :: _) => true
  | _ => false

/-- The telemetry object with every member absent — a well-formed (if useless)
backend response. -/
def emptyTelemetry : TelemetryJS :=
  { driver := none, lap_time := none, lap_number := none, time := none
    distance := none, speed := none, throttle := none, brake := none
    gear := none, rpm := none, drs := none, tire_info := none
    weather_info := none, track_status := none, sector_times := none
    statistics := none, track_info := none }

/-- A minimal successful backend response with one sample in every channel and
no statistics object. -/
def oneSampleTelemetry : TelemetryJS :=
  { emptyTelemetry with
    speed := some [100], throttle := some [100], brake := some [JSVal.bool false]
    gear := some [5], rpm := some [9000], drs := some [1] }

/-- What `getTelemetryData` makes of `oneSampleTelemetry` (with `Math.sqrt`
modelled as the constant-zero oracle): the same object with the enhanced
statistics installed. -/
def oneSampleResult : TelemetryJS :=
  { oneSampleTelemetry with
    statistics := some
      [("max_speed", 100), ("avg_speed", 100), ("min_speed", 100),
       ("speed_std", 0), ("top_gear", 5), ("max_rpm", 9000), ("avg_rpm", 9000),
       ("throttle_percentage", 100), ("brake_percentage", 0),
       ("coast_percentage", 0), ("gear_changes", 0), ("drs_percentage", 100)] }

end F1Spec

namespace F1Spec

/-! ## Theorems for App.js claims -/

/-- Claim C1: a telemetry payload with a statistics object drives the effect
options to exactly `speed = 0.3 + 1.2·(max_speed/350)`,
`density = 50 + 100·(throttle_percentage/100)`,
`colorIntensity = 0.5 + 0.5·(max_speed/350)` and
`distortionLevel = 0.3·(throttle_percentage/100)`, with `max_speed` defaulting
to 300 and `throttle_percentage` to 50 when absent or falsy, every other option
keeping its previous value; a payload without statistics leaves the options
unchanged. -/
theorem handleTelemetryDataChange_spec :
    (∀ (st : StatsView) (prev : EffectOptions),
        handleTelemetryDataChange ⟨some st⟩ prev =
          { speed := 0.3 + 1.2 * (jsOrDefault st.max_speed 300 / 350)
            density := 50 + 100 * (jsOrDefault st.throttle_percentage 50 / 100)
            colorIntensity := 0.5 + 0.5 * (jsOrDefault st.max_speed 300 / 350)
            distortionLevel := 0.3 * (jsOrDefault st.throttle_percentage 50 / 100)
            rest := prev.rest }) ∧
    (∀ prev : EffectOptions, handleTelemetryDataChange ⟨none⟩ prev = prev) := by
  constructor
  · intro st prev
    simp only [handleTelemetryDataChange]
    congr 1 <;> ring
  · intro prev
    rfl

theorem tickEntry_target (dt : ℚ) (e : ParamEntry) :
    (tickEntry dt e).target = e.target := rfl

theorem tickEntry_rate (dt : ℚ) (e : ParamEntry) :
    (tickEntry dt e).rate = e.rate := rfl

theorem tickSeq_target (dts : ℕ → ℚ) (e : ParamEntry) (n : ℕ) :
    (tickSeq dts e n).target = e.target := by
  induction n with
  | zero => rfl
  | succ n ih => simpa [tickSeq, tickEntry_target] using ih

theorem tickSeq_rate (dts : ℕ → ℚ) (e : ParamEntry) (n : ℕ) :
    (tickSeq dts e n).rate = e.rate := by
  induction n with
  | zero => rfl
  | succ n ih => simpa [tickSeq, tickEntry_rate] using ih

/-- The interpolation coefficient of one tick lies in `[0, 1]` whenever the
rate and the elapsed time are nonnegative. -/
theorem interpCoeff_mem (dt rate : ℚ) (hdt : 0 ≤ dt) (hr : 0 ≤ rate) :
    0 ≤ min 1 (rate * dt) ∧ min 1 (rate * dt) ≤ 1 :=
  ⟨le_min (by norm_num) (mul_nonneg hr hdt), min_le_left _ _⟩

/-- One tick scales the distance to the target by `1 - min 1 (rate·dt)`. -/
theorem tickEntry_err (dt : ℚ) (e : ParamEntry) :
    (tickEntry dt e).current - e.target =
      (e.current - e.target) * (1 - min 1 (e.rate * dt)) := by
  simp only [tickEntry]
  ring

/-- Absolute-error contraction of one tick. -/
theorem tickEntry_abs_err (dt : ℚ) (e : ParamEntry) :
    |(tickEntry dt e).current - e.target| =
      |e.current - e.target| * (1 - min 1 (e.rate * dt)) := by
  have h1 : min 1 (e.rate * dt) ≤ 1 := min_le_left _ _
  rw [tickEntry_err, abs_mul, abs_of_nonneg (by linarith : (0:ℚ) ≤ 1 - min 1 (e.rate * dt))]

/-- One tick never leaves the closed interval spanned by the prior current
value and the target (exact no-overshoot). -/
theorem tickEntry_no_overshoot (dt : ℚ) (e : ParamEntry) (hdt : 0 ≤ dt)
    (hr : 0 ≤ e.rate) :
    min e.current e.target ≤ (tickEntry dt e).current ∧
      (tickEntry dt e).current ≤ max e.current e.target := by
  obtain ⟨ha0, ha1⟩ := interpCoeff_mem dt e.rate hdt hr
  rcases le_total e.current e.target with h | h
  · rw [min_eq_left h, max_eq_right h]
    constructor
    · simp only [tickEntry]
      nlinarith
    · simp only [tickEntry]
      nlinarith
  · rw [min_eq_right h, max_eq_left h]
    constructor
    · simp only [tickEntry]
      nlinarith
    · simp only [tickEntry]
      nlinarith

/-- After ticking with time steps bounded below by `dtmin`, the distance to the
target decays at least geometrically with ratio `1 - min 1 (rate·dtmin)`. -/
theorem tickSeq_abs_err_le (e : ParamEntry) (dts : ℕ → ℚ) (dtmin : ℚ)
    (hr : 0 < e.rate) (hd : ∀ n, dtmin ≤ dts n) (n : ℕ) :
    |(tickSeq dts e n).current - e.target| ≤
      |e.current - e.target| * (1 - min 1 (e.rate * dtmin)) ^ n := by
  set β : ℚ := 1 - min 1 (e.rate * dtmin) with hβ
  have hβ0 : 0 ≤ β := by
    have : min 1 (e.rate * dtmin) ≤ 1 := min_le_left _ _
    simp only [hβ]
    linarith
  induction n with
  | zero => simp [tickSeq]
  | succ n ih =>
      have htgt := tickSeq_target dts e n
      have hrate := tickSeq_rate dts e n
      have hstep := tickEntry_abs_err (dts n) (tickSeq dts e n)
      rw [htgt, hrate] at hstep
      have hcoeff : 1 - min 1 (e.rate * dts n) ≤ β := by
        have hmul : e.rate * dtmin ≤ e.rate * dts n :=
          mul_le_mul_of_nonneg_left (hd n) hr.le
        have : min 1 (e.rate * dtmin) ≤ min 1 (e.rate * dts n) :=
          min_le_min (le_refl 1) hmul
        simp only [hβ]
        linarith
      have hcoeff0 : 0 ≤ 1 - min 1 (e.rate * dts n) := by
        have : min 1 (e.rate * dts n) ≤ 1 := min_le_left _ _
        linarith
      calc |(tickSeq dts e (n + 1)).current - e.target|
          = |(tickSeq dts e n).current - e.target| * (1 - min 1 (e.rate * dts n)) := by
            simpa [tickSeq] using hstep
        _ ≤ |(tickSeq dts e n).current - e.target| * β :=
            mul_le_mul_of_nonneg_left hcoeff (abs_nonneg _)
        _ ≤ (|e.current - e.target| * β ^ n) * β :=
            mul_le_mul_of_nonneg_right ih hβ0
        _ = |e.current - e.target| * β ^ (n + 1) := by ring

/-- The tick-by-tick distance to the (fixed) target never increases. -/
theorem tickSeq_abs_err_antitone (e : ParamEntry) (dts : ℕ → ℚ)
    (hr : 0 ≤ e.rate) (hd : ∀ n, 0 ≤ dts n) {m n : ℕ} (hmn : m ≤ n) :
    |(tickSeq dts e n).current - e.target| ≤
      |(tickSeq dts e m).current - e.target| := by
  induction n, hmn using Nat.le_induction with
  | base => exact le_refl _
  | succ n hmn ih =>
      have htgt := tickSeq_target dts e n
      have hrate := tickSeq_rate dts e n
      have hstep := tickEntry_abs_err (dts n) (tickSeq dts e n)
      rw [htgt, hrate] at hstep
      obtain ⟨ha0, ha1⟩ := interpCoeff_mem (dts n) e.rate (hd n) hr
      calc |(tickSeq dts e (n + 1)).current - e.target|
          = |(tickSeq dts e n).current - e.target| * (1 - min 1 (e.rate * dts n)) := by
            simpa [tickSeq] using hstep
        _ ≤ |(tickSeq dts e n).current - e.target| * 1 := by
            apply mul_le_mul_of_nonneg_left _ (abs_nonneg _)
            linarith
        _ = |(tickSeq dts e n).current - e.target| := by ring
        _ ≤ _ := ih

/-- Claim C3: a single tick of the Parameter Store never moves `current`
outside the interval spanned by the prior current value and the (last-set)
target — no overshoot at all, hence none beyond epsilon — and, after
`setTarget v` redirects an arbitrary entry, ticking with any time-step schedule
bounded below by a positive `dtmin` makes `current` eventually stay within any
positive `ε` of `v`. -/
theorem paramStore_no_overshoot_and_converges :
    (∀ (e : ParamEntry) (dt : ℚ), 0 ≤ dt → 0 ≤ e.rate →
        min e.current e.target ≤ (tickEntry dt e).current ∧
          (tickEntry dt e).current ≤ max e.current e.target) ∧
    (∀ (e : ParamEntry) (v : ℚ) (dts : ℕ → ℚ) (dtmin ε : ℚ),
        0 < e.rate → 0 < dtmin → (∀ n, dtmin ≤ dts n) → 0 < ε →
        ∃ N, ∀ n, N ≤ n →
          |(tickSeq dts (setTargetE v e) n).current - v| ≤ ε) := by
  refine ⟨fun e dt hdt hr => tickEntry_no_overshoot dt e hdt hr, ?_⟩
  intro e v dts dtmin ε hr hdm hd hε
  set e₀ : ParamEntry := setTargetE v e with he₀
  have hrate₀ : e₀.rate = e.rate := rfl
  have htgt₀ : e₀.target = v := rfl
  set β : ℚ := 1 - min 1 (e.rate * dtmin) with hβ
  have hβ0 : 0 ≤ β := by
    have : min 1 (e.rate * dtmin) ≤ 1 := min_le_left _ _
    simp only [hβ]; linarith
  have hβ1 : β < 1 := by
    have : 0 < min 1 (e.rate * dtmin) := lt_min (by norm_num) (mul_pos hr hdm)
    simp only [hβ]; linarith
  have hdpos : ∀ n, 0 ≤ dts n := fun n => le_trans hdm.le (hd n)
  have hbound : ∀ n, |(tickSeq dts e₀ n).current - v| ≤
      |e₀.current - v| * β ^ n := by
    intro n
    have := tickSeq_abs_err_le e₀ dts dtmin (by rw [hrate₀]; exact hr) hd n
    rw [htgt₀, hrate₀] at this
    exact this
  rcases eq_or_lt_of_le (abs_nonneg (e₀.current - v)) with hzero | hpos
  · refine ⟨0, fun n _ => ?_⟩
    calc |(tickSeq dts e₀ n).current - v| ≤ |e₀.current - v| * β ^ n := hbound n
      _ = 0 := by rw [← hzero]; ring
      _ ≤ ε := hε.le
  · obtain ⟨N, hN⟩ := exists_pow_lt_of_lt_one (div_pos hε hpos) hβ1
    refine ⟨N, fun n hn => ?_⟩
    have hmono := tickSeq_abs_err_antitone e₀ dts
      (by rw [hrate₀]; exact hr.le) hdpos hn
    rw [htgt₀] at hmono
    have hNbound : |(tickSeq dts e₀ N).current - v| ≤ ε := by
      have h1 : |e₀.current - v| * β ^ N < |e₀.current - v| * (ε / |e₀.current - v|) :=
        mul_lt_mul_of_pos_left hN hpos
      have h2 : |e₀.current - v| * (ε / |e₀.current - v|) = ε := by
        field_simp
      calc |(tickSeq dts e₀ N).current - v| ≤ |e₀.current - v| * β ^ N := hbound N
        _ ≤ ε := by rw [← h2]; exact h1.le
    exact le_trans hmono hNbound

/-- Witness for claim C3 at a concrete entry (`current = 0`, `target = 2`,
`rate = 1`), redirected to `v = 1`, with constant `deltaTime = 1/2` steps and
`ε = 1/10`. -/
theorem paramStore_no_overshoot_and_converges_witness :
    (min (0:ℚ) 2 ≤ (tickEntry (1/2) ⟨0, 2, 1⟩).current ∧
      (tickEntry (1/2) ⟨0, 2, 1⟩).current ≤ max (0:ℚ) 2) ∧
    (∃ N, ∀ n, N ≤ n →
      |(tickSeq (fun _ => 1/2) (setTargetE 1 ⟨0, 2, 1⟩) n).current - 1| ≤ 1/10) :=
  ⟨paramStore_no_overshoot_and_converges.1 ⟨0, 2, 1⟩ (1/2)
      (by norm_num) (by norm_num),
   paramStore_no_overshoot_and_converges.2 ⟨0, 2, 1⟩ 1 (fun _ => 1/2) (1/2) (1/10)
      (by norm_num) (by norm_num) (fun _ => le_refl _) (by norm_num)⟩

/-- Claim C4: with targets fixed, one tick of `2·dt` lands within epsilon of
two consecutive ticks of `dt`, for every epsilon at least
`(rate·dt)² · |target - current|` — the discrepancy of the time-based smoothing
step is bounded by that second-order quantity (and the bound is attained when
`2·rate·dt ≤ 1`), so the smoothing is time-based, not frame-count-based. -/
theorem tick_framerate_independence (e : ParamEntry) (dt ε : ℚ)
    (hdt : 0 ≤ dt) (hr : 0 ≤ e.rate)
    (hε : (e.rate * dt) ^ 2 * |e.target - e.current| ≤ ε) :
    |(tickEntry (2 * dt) e).current - (tickEntry dt (tickEntry dt e)).current| ≤ ε := by
  set x : ℚ := e.rate * dt with hx
  have hx0 : 0 ≤ x := mul_nonneg hr hdt
  set a : ℚ := min 1 x with ha
  set b : ℚ := min 1 (e.rate * (2 * dt)) with hb
  have hb' : b = min 1 (2 * x) := by rw [hb, hx]; ring_nf
  have hdiff : (tickEntry (2 * dt) e).current -
      (tickEntry dt (tickEntry dt e)).current =
      (e.target - e.current) * (b - 2 * a + a ^ 2) := by
    simp only [tickEntry, ← ha, ← hb]
    ring
  have hkey : |b - 2 * a + a ^ 2| ≤ x ^ 2 := by
    rcases le_or_lt (2 * x) 1 with h2x | h2x
    · have hax : a = x := by rw [ha]; exact min_eq_right (by linarith)
      have hbx : b = 2 * x := by rw [hb']; exact min_eq_right h2x
      rw [hax, hbx]
      rw [abs_of_nonneg (by ring_nf; positivity)]
      nlinarith
    · have hb1 : b = 1 := by rw [hb']; exact min_eq_left (by linarith)
      rcases le_or_lt x 1 with hx1 | hx1
      · have hax : a = x := by rw [ha]; exact min_eq_right hx1
        rw [hb1, hax]
        rw [abs_of_nonneg (by nlinarith)]
        nlinarith
      · have ha1 : a = 1 := by rw [ha]; exact min_eq_left hx1.le
        rw [hb1, ha1]
        simp only [show (1:ℚ) - 2 * 1 + 1 ^ 2 = 0 by ring]
        rw [abs_zero]
        positivity
  calc |(tickEntry (2 * dt) e).current - (tickEntry dt (tickEntry dt e)).current|
      = |e.target - e.current| * |b - 2 * a + a ^ 2| := by rw [hdiff, abs_mul]
    _ ≤ |e.target - e.current| * x ^ 2 :=
        mul_le_mul_of_nonneg_left hkey (abs_nonneg _)
    _ = x ^ 2 * |e.target - e.current| := by ring
    _ ≤ ε := hε

/-- Witness for claim C4 at the claim's numbers: a 32 ms tick versus two 16 ms
ticks, on the entry `current = 0`, `target = 1`, `rate = 1/100` per ms, with
`ε = (16/100)² = 256/10000`. -/
theorem tick_framerate_independence_witness :
    |(tickEntry 32 ⟨0, 1, 1/100⟩).current -
        (tickEntry 16 (tickEntry 16 ⟨0, 1, 1/100⟩)).current| ≤ 256/10000 := by
  have h := tick_framerate_independence ⟨0, 1, 1/100⟩ 16 (256/10000)
    (by norm_num) (by norm_num)
    (by norm_num)
  have h32 : (2 : ℚ) * 16 = 32 := by norm_num
  rwa [h32] at h

theorem setTargetS_writesOnlyTargets (name : String) (v : ℚ) :
    WritesOnlyTargets (setTargetS name v) := by
  intro s
  refine ⟨?_, ?_, rfl, rfl, rfl, rfl⟩
  · unfold currents setTargetS
    simp only [List.map_map]
    apply List.map_congr_left
    intro p _
    by_cases h : p.1 = name <;> simp [Function.comp_apply, h, setTargetE]
  · unfold rates setTargetS
    simp only [List.map_map]
    apply List.map_congr_left
    intro p _
    by_cases h : p.1 = name <;> simp [Function.comp_apply, h, setTargetE]

theorem applyUpdates_writesOnlyTargets (us : List (String × ℚ)) :
    WritesOnlyTargets (applyUpdates us) := by
  induction us with
  | nil => intro s; exact ⟨rfl, rfl, rfl, rfl, rfl, rfl⟩
  | cons u us ih =>
      intro s
      have hstep := setTargetS_writesOnlyTargets u.1 u.2 s
      have hrest := ih (setTargetS u.1 u.2 s)
      have hcons : applyUpdates (u :: us) s = applyUpdates us (setTargetS u.1 u.2 s) := rfl
      rw [hcons]
      exact ⟨hrest.1.trans hstep.1, hrest.2.1.trans hstep.2.1,
        hrest.2.2.1.trans hstep.2.2.1, hrest.2.2.2.1.trans hstep.2.2.2.1,
        hrest.2.2.2.2.1.trans hstep.2.2.2.2.1, hrest.2.2.2.2.2.trans hstep.2.2.2.2.2⟩

/-- Claim C2: every input event and every external telemetry update writes
only the target fields of the Parameter Store — the current values, the
smoothing rates, the geometry pool, the camera, the lifecycle phase and the
resource handle are untouched, so both kinds of update share the one
interpolation path. -/
theorem updates_write_only_targets :
    (∀ us : List (String × ℚ), WritesOnlyTargets (applyUpdates us)) ∧
    (∀ st : StatsView, WritesOnlyTargets (telemetryUpdate st)) ∧
    (∀ (baseline boosted : ℚ) (i : InputIntent),
        WritesOnlyTargets (inputUpdate baseline boosted i)) :=
  ⟨applyUpdates_writesOnlyTargets,
   fun _ => applyUpdates_writesOnlyTargets _,
   fun _ _ _ => setTargetS_writesOnlyTargets _ _⟩

/-- Claim C5: no pool event — repositioning tick or density change — creates
or destroys a pooled element, and after any sequence of events the number of
allocated elements still equals the pool size fixed at initialization. -/
theorem pool_size_invariant :
    (∀ (env : PoolEnv) (pool : List PoolElem) (op : PoolOp),
        (applyPoolOp env pool op).length = pool.length) ∧
    (∀ (env : PoolEnv) (n activeCount : ℕ) (spread : ℕ → ℚ) (ops : List PoolOp),
        (runPool env ops (initPool n activeCount spread)).length = n) := by
  have hop : ∀ (env : PoolEnv) (pool : List PoolElem) (op : PoolOp),
      (applyPoolOp env pool op).length = pool.length := by
    intro env pool op
    cases op with
    | tickOp speed dt newColor => simp [applyPoolOp, tickPool]
    | densityOp k randPos => simp [applyPoolOp, setDensity]
  refine ⟨hop, ?_⟩
  intro env n activeCount spread ops
  have hrun : ∀ (ops : List PoolOp) (pool : List PoolElem),
      (runPool env ops pool).length = pool.length := by
    intro ops
    induction ops with
    | nil => intro pool; rfl
    | cons op ops ih =>
        intro pool
        have : runPool env (op :: ops) pool = runPool env ops (applyPoolOp env pool op) := rfl
        rw [this, ih, hop]
  rw [hrun]
  simp [initPool]

/-- Claim C6: after `dispose()` the engine accepts no tick: any single residual
frame callback and any sequence of them is a no-op returning the disposed
state unchanged, and no resource-access error is raised. -/
theorem dispose_ticks_noop :
    (∀ (env : PoolEnv) (newColor : ℕ → ℕ) (dt : ℚ) (s : EngineState),
        tickEngine env newColor dt (dispose s) = Except.ok (dispose s)) ∧
    (∀ (env : PoolEnv) (newColor : ℕ → ℕ) (dts : List ℚ) (s : EngineState),
        runTicks env newColor dts (dispose s) = Except.ok (dispose s)) := by
  have hone : ∀ (env : PoolEnv) (newColor : ℕ → ℕ) (dt : ℚ) (s : EngineState),
      tickEngine env newColor dt (dispose s) = Except.ok (dispose s) := by
    intro env newColor dt s
    rfl
  refine ⟨hone, ?_⟩
  intro env newColor dts s
  induction dts with
  | nil => rfl
  | cons dt dts ih =>
      have : runTicks env newColor (dt :: dts) (dispose s) =
          tickEngine env newColor dt (dispose s) >>= runTicks env newColor dts := rfl
      rw [this, hone]
      simpa using ih

theorem pickOption_valid (input : List (String × ℚ)) (key : String) (dflt : ℚ)
    (inRange : ℚ → Bool) (hd : inRange dflt = true) :
    inRange (pickOption input key dflt inRange) = true := by
  unfold pickOption
  cases input.lookup key with
  | none => exact hd
  | some v =>
      by_cases hv : inRange v = true
      · simp [hv]
      · simp only [Bool.not_eq_true] at hv
        simpa [hv]

theorem pickOption_ignores (input : List (String × ℚ)) (key k : String)
    (w dflt : ℚ) (inRange : ℚ → Bool) (h : key ≠ k) :
    pickOption ((k, w) :: input) key dflt inRange =
      pickOption input key dflt inRange := by
  simp [pickOption, List.lookup, beq_eq_false_iff_ne.mpr h]

/-- Claim C7: configuration loading is total and always yields a valid
configuration — every recognized option is within its documented range after
loading, prepending a pair with an unrecognized key never changes the result,
and an out-of-range (negative) density yields the documented default density
`50` rather than an error. -/
theorem loadConfig_total_and_defaults :
    (∀ input : List (String × ℚ), validConfig (loadConfig input) = true) ∧
    (∀ (input : List (String × ℚ)) (k : String) (w : ℚ), k ∉ recognizedKeys →
        loadConfig ((k, w) :: input) = loadConfig input) ∧
    (∀ (input : List (String × ℚ)) (v : ℚ), v < 0 →
        (loadConfig (("density", v) :: input)).density = 50) := by
  refine ⟨?_, ?_, ?_⟩
  · intro input
    simp only [validConfig, loadConfig, Bool.and_eq_true]
    refine ⟨⟨⟨⟨⟨?_, ?_⟩, ?_⟩, ?_⟩, ?_⟩, ?_⟩ <;>
      apply pickOption_valid <;> decide
  · intro input k w hk
    simp only [recognizedKeys, List.mem_cons, List.mem_singleton,
      List.not_mem_nil, or_false, not_or] at hk
    obtain ⟨h1, h2, h3, h4, h5, h6⟩ := hk
    simp only [loadConfig]
    rw [pickOption_ignores _ _ _ _ _ _ (Ne.symm h1),
        pickOption_ignores _ _ _ _ _ _ (Ne.symm h2),
        pickOption_ignores _ _ _ _ _ _ (Ne.symm h3),
        pickOption_ignores _ _ _ _ _ _ (Ne.symm h4),
        pickOption_ignores _ _ _ _ _ _ (Ne.symm h5),
        pickOption_ignores _ _ _ _ _ _ (Ne.symm h6)]
  · intro input v hv
    have hrange : densityInRange v = false := by
      simp [densityInRange, not_le.mpr hv]
    simp [loadConfig, pickOption, List.lookup, hrange]

/-- Witness for claim C7: the empty configuration is valid, the unknown key
`lightPairs` is ignored, and `density = -5` falls back to the default `50`. -/
theorem loadConfig_total_and_defaults_witness :
    validConfig (loadConfig []) = true ∧
    loadConfig [("lightPairs", 40)] = loadConfig [] ∧
    (loadConfig [("density", -5)]).density = 50 :=
  ⟨loadConfig_total_and_defaults.1 [],
   loadConfig_total_and_defaults.2.1 [] "lightPairs" 40 (by decide),
   loadConfig_total_and_defaults.2.2 [] (-5) (by norm_num)⟩

theorem statisticsTruthy_nonempty (o : Option (List (String × ℚ)))
    (h : statisticsTruthyThrottle o = true) : ∃ s, o = some s ∧ s ≠ [] := by
  cases o with
  | none => simp [statisticsTruthyThrottle] at h
  | some s =>
      refine ⟨s, rfl, ?_⟩
      cases s with
      | nil => simp [statisticsTruthyThrottle, List.lookup] at h
      | cons a t => exact List.cons_ne_nil a t

theorem calculateEnhancedStatistics_ok_nonempty (sqrtO : ℚ → ℚ)
    (t : TelemetryJS) (s : List (String × ℚ))
    (h1 : t.speed.isSome = true) (h2 : t.throttle.isSome = true)
    (h3 : t.brake.isSome = true)
    (hcalc : calculateEnhancedStatistics sqrtO t = .ok s) : s ≠ [] := by
  obtain ⟨sp, hsp⟩ := Option.isSome_iff_exists.mp h1
  obtain ⟨th, hth⟩ := Option.isSome_iff_exists.mp h2
  obtain ⟨br, hbr⟩ := Option.isSome_iff_exists.mp h3
  unfold calculateEnhancedStatistics at hcalc
  rw [hsp, hth, hbr] at hcalc
  simp only [Option.isNone_some, Bool.or_self, Bool.false_or] at hcalc
  cases hg : t.gear with
  | none =>
      rw [hg] at hcalc
      cases hr : t.rpm <;> rw [hr] at hcalc <;>
        rw [if_neg Bool.false_ne_true] at hcalc <;> simp at hcalc
  | some gear =>
      rw [hg] at hcalc
      cases hr : t.rpm with
      | none =>
          rw [hr, if_neg Bool.false_ne_true] at hcalc
          simp at hcalc
      | some rpm =>
          rw [hr, if_neg Bool.false_ne_true] at hcalc
          simp only [Except.ok.injEq] at hcalc
          rw [← hcalc]
          exact List.cons_ne_nil _ _

theorem generateMock_statistics_populated (rnd : ℕ → ℚ) (sinO sqrtO : ℚ → ℚ)
    (dc st : String) :
    hasPopulatedStatistics (generateMockTelemetryData rnd sinO sqrtO dc st) = true := rfl

/-- Claim C9, counterexample: a successful backend response with no statistics
object and no telemetry channels resolves — but with the empty statistics
object installed (`calculateEnhancedStatistics` of a channel-less object is
`{}`), not a populated one. -/
theorem getTelemetryData_empty_statistics :
    getTelemetryData (fun _ => 0) (fun _ => 0) (fun _ => 0) "HAM" "Q"
        (Except.ok emptyTelemetry) =
      Except.ok { emptyTelemetry with statistics := some [] } ∧
    hasPopulatedStatistics { emptyTelemetry with statistics := some [] } = false :=
  ⟨rfl, rfl⟩

/-- Claim C9 (amended): `getTelemetryData` never rejects — it always resolves
with a telemetry object carrying a statistics member; a failed backend request
resolves with the mock from `generateMockTelemetryData`; and whenever a
successful response provides the `speed`, `throttle` and `brake` channels, the
resolved object's statistics (recomputed by `calculateEnhancedStatistics` when
the response lacks them) are populated. A channel-less successful response
without statistics instead yields the empty statistics object. -/
theorem getTelemetryData_resolves :
    (∀ (rnd : ℕ → ℚ) (sinO sqrtO : ℚ → ℚ) (dc st : String)
        (backend : Except String TelemetryJS),
        ∃ t, getTelemetryData rnd sinO sqrtO dc st backend = .ok t ∧
          t.statistics.isSome = true) ∧
    (∀ (rnd : ℕ → ℚ) (sinO sqrtO : ℚ → ℚ) (dc st msg : String),
        getTelemetryData rnd sinO sqrtO dc st (.error msg) =
          .ok (generateMockTelemetryData rnd sinO sqrtO dc st)) ∧
    (∀ (rnd : ℕ → ℚ) (sinO sqrtO : ℚ → ℚ) (dc st : String) (t r : TelemetryJS),
        t.speed.isSome = true → t.throttle.isSome = true →
        t.brake.isSome = true →
        getTelemetryData rnd sinO sqrtO dc st (.ok t) = .ok r →
        hasPopulatedStatistics r = true) := by
  have hmock_some : ∀ (rnd : ℕ → ℚ) (sinO sqrtO : ℚ → ℚ) (dc st : String),
      (generateMockTelemetryData rnd sinO sqrtO dc st).statistics.isSome = true :=
    fun _ _ _ _ _ => rfl
  refine ⟨?_, fun _ _ _ _ _ _ => rfl, ?_⟩
  · intro rnd sinO sqrtO dc st backend
    cases backend with
    | error msg =>
        exact ⟨generateMockTelemetryData rnd sinO sqrtO dc st, rfl,
          hmock_some rnd sinO sqrtO dc st⟩
    | ok t =>
        unfold getTelemetryData
        cases hcond : statisticsTruthyThrottle t.statistics with
        | false =>
            simp only [hcond, Bool.not_false, if_true]
            cases hcalc : calculateEnhancedStatistics sqrtO t with
            | ok s => exact ⟨{ t with statistics := some s }, rfl, rfl⟩
            | error e =>
                exact ⟨generateMockTelemetryData rnd sinO sqrtO dc st, rfl,
                  hmock_some rnd sinO sqrtO dc st⟩
        | true =>
            simp only [hcond, Bool.not_true, if_false]
            obtain ⟨s, hs, -⟩ := statisticsTruthy_nonempty t.statistics hcond
            exact ⟨t, rfl, by rw [hs]; rfl⟩
  · intro rnd sinO sqrtO dc st t r h1 h2 h3 hres
    unfold getTelemetryData at hres
    cases hcond : statisticsTruthyThrottle t.statistics with
    | true =>
        simp only [hcond, Bool.not_true] at hres
        rw [if_neg Bool.false_ne_true] at hres
        simp only [Except.ok.injEq] at hres
        obtain ⟨s, hs, hne⟩ := statisticsTruthy_nonempty t.statistics hcond
        cases s with
        | nil => exact absurd rfl hne
        | cons a l =>
            rw [← hres]
            simp [hasPopulatedStatistics, hs]
    | false =>
        simp only [hcond, Bool.not_false] at hres
        rw [if_pos trivial] at hres
        cases hcalc : calculateEnhancedStatistics sqrtO t with
        | ok s =>
            rw [hcalc] at hres
            simp only [Except.ok.injEq] at hres
            have hne := calculateEnhancedStatistics_ok_nonempty sqrtO t s h1 h2 h3 hcalc
            cases s with
            | nil => exact absurd rfl hne
            | cons a l =>
                rw [← hres]
                simp [hasPopulatedStatistics]
        | error e =>
            rw [hcalc] at hres
            simp only [Except.ok.injEq] at hres
            rw [← hres]
            exact generateMock_statistics_populated rnd sinO sqrtO dc st

/-- Witness for the amended claim C9: a rejected request resolves with the
mock, and the one-sample successful response resolves with populated
statistics. -/
theorem getTelemetryData_resolves_witness :
    getTelemetryData (fun _ => 0) (fun _ => 0) (fun _ => 0) "HAM" "Q"
        (Except.error "ECONNREFUSED") =
      Except.ok (generateMockTelemetryData (fun _ => 0) (fun _ => 0) (fun _ => 0)
        "HAM" "Q") ∧
    hasPopulatedStatistics oneSampleResult = true :=
  ⟨getTelemetryData_resolves.2.1 (fun _ => 0) (fun _ => 0) (fun _ => 0)
      "HAM" "Q" "ECONNREFUSED",
   getTelemetryData_resolves.2.2 (fun _ => 0) (fun _ => 0) (fun _ => 0)
      "HAM" "Q" oneSampleTelemetry oneSampleResult rfl rfl rfl (by
        norm_num [getTelemetryData, statisticsTruthyThrottle,
          calculateEnhancedStatistics, oneSampleTelemetry, oneSampleResult,
          emptyTelemetry, listSum, listMax, listMin, countGearChanges,
          calculateStandardDeviation, brakeOn])⟩

/-- Claim C10: every channel of a mock telemetry object has exactly 200
samples, every speed sample is at least 50, every throttle sample lies in
`[0, 100]`, every gear sample lies in `[1, 8]`, and every DRS sample is 0
or 1 — for arbitrary outcomes of `Math.random` and `Math.sin`. -/
theorem generateMock_channel_invariants (rnd : ℕ → ℚ) (sinO sqrtO : ℚ → ℚ)
    (dc st : String) :
    (((generateMockTelemetryData rnd sinO sqrtO dc st).time.getD []).length = 200 ∧
     ((generateMockTelemetryData rnd sinO sqrtO dc st).distance.getD []).length = 200 ∧
     ((generateMockTelemetryData rnd sinO sqrtO dc st).speed.getD []).length = 200 ∧
     ((generateMockTelemetryData rnd sinO sqrtO dc st).throttle.getD []).length = 200 ∧
     ((generateMockTelemetryData rnd sinO sqrtO dc st).brake.getD []).length = 200 ∧
     ((generateMockTelemetryData rnd sinO sqrtO dc st).gear.getD []).length = 200 ∧
     ((generateMockTelemetryData rnd sinO sqrtO dc st).rpm.getD []).length = 200 ∧
     ((generateMockTelemetryData rnd sinO sqrtO dc st).drs.getD []).length = 200) ∧
    (∀ x ∈ (generateMockTelemetryData rnd sinO sqrtO dc st).speed.getD [],
        50 ≤ x) ∧
    (∀ x ∈ (generateMockTelemetryData rnd sinO sqrtO dc st).throttle.getD [],
        0 ≤ x ∧ x ≤ 100) ∧
    (∀ x ∈ (generateMockTelemetryData rnd sinO sqrtO dc st).gear.getD [],
        1 ≤ x ∧ x ≤ 8) ∧
    (∀ x ∈ (generateMockTelemetryData rnd sinO sqrtO dc st).drs.getD [],
        x = 0 ∨ x = 1) := by
  have hspeed : (generateMockTelemetryData rnd sinO sqrtO dc st).speed =
      some ((List.range mockPoints).map (mockSpeedAt rnd sinO)) := rfl
  have hthrottle : (generateMockTelemetryData rnd sinO sqrtO dc st).throttle =
      some ((List.range mockPoints).map (mockThrottleAt rnd sinO)) := rfl
  have hgear : (generateMockTelemetryData rnd sinO sqrtO dc st).gear =
      some ((List.range mockPoints).map (mockGearAt rnd sinO)) := rfl
  have hdrs : (generateMockTelemetryData rnd sinO sqrtO dc st).drs =
      some ((List.range mockPoints).map (mockDrsAt rnd sinO)) := rfl
  have htime : (generateMockTelemetryData rnd sinO sqrtO dc st).time =
      some ((List.range mockPoints).map fun (i : ℕ) =>
        (i : ℚ) * (monacoLapTime / (mockPoints : ℚ))) := rfl
  have hdist : (generateMockTelemetryData rnd sinO sqrtO dc st).distance =
      some ((List.range mockPoints).map fun (i : ℕ) =>
        ((i : ℚ) / (mockPoints : ℚ)) * 3337) := rfl
  have hbrake : (generateMockTelemetryData rnd sinO sqrtO dc st).brake =
      some ((List.range mockPoints).map (mockBrakeAt rnd sinO)) := rfl
  have hrpm : (generateMockTelemetryData rnd sinO sqrtO dc st).rpm =
      some ((List.range mockPoints).map (mockRpmAt rnd sinO)) := rfl
  refine ⟨⟨?_, ?_, ?_, ?_, ?_, ?_, ?_, ?_⟩, ?_, ?_, ?_, ?_⟩
  · rw [htime]; simp [mockPoints]
  · rw [hdist]; simp [mockPoints]
  · rw [hspeed]; simp [mockPoints]
  · rw [hthrottle]; simp [mockPoints]
  · rw [hbrake]; simp [mockPoints]
  · rw [hgear]; simp [mockPoints]
  · rw [hrpm]; simp [mockPoints]
  · rw [hdrs]; simp [mockPoints]
  · rw [hspeed]
    intro x hx
    simp only [Option.getD_some, List.mem_map] at hx
    obtain ⟨i, -, rfl⟩ := hx
    exact le_max_left _ _
  · rw [hthrottle]
    intro x hx
    simp only [Option.getD_some, List.mem_map] at hx
    obtain ⟨i, -, rfl⟩ := hx
    exact ⟨le_max_left _ _,
      max_le (by norm_num) (min_le_left _ _)⟩
  · rw [hgear]
    intro x hx
    simp only [Option.getD_some, List.mem_map] at hx
    obtain ⟨i, -, rfl⟩ := hx
    unfold mockGearAt
    constructor
    · exact_mod_cast
        (le_max_left 1 (min 8 (⌊mockRawSpeed rnd sinO i / 45⌋ + 1)) : (1:ℤ) ≤ _)
    · exact_mod_cast
        (max_le (by norm_num) (min_le_left _ _) :
          max 1 (min 8 (⌊mockRawSpeed rnd sinO i / 45⌋ + 1)) ≤ (8:ℤ))
  · rw [hdrs]
    intro x hx
    simp only [Option.getD_some, List.mem_map] at hx
    obtain ⟨i, -, rfl⟩ := hx
    unfold mockDrsAt
    split
    · right; rfl
    · left; rfl

/-- Claim C8, counterexample: the claim exempts only the literal keys `h`, `t`,
`i`, `Escape`, but the handler lowercases `event.key` first, so the distinct
key `"H"` (Shift held) also toggles the UI flag instead of leaving all three
flags unchanged. -/
theorem handleKeyPress_uppercase_not_ignored :
    ("H" ∉ (["h", "t", "i", "Escape"] : List String)) ∧
      handleKeyPress "H" ⟨true, false, true⟩ ≠ ⟨true, false, true⟩ := by
  constructor
  · decide
  · intro h
    have : (handleKeyPress "H" ⟨true, false, true⟩).showUI = true := by rw [h]
    exact absurd this (by decide)

/-- Claim C8 (amended): key matching is case-insensitive on `event.key` — any
key lowercasing to `h` toggles the UI flag, to `t` the telemetry-charts flag,
to `i` the info-panel flag, to `escape` sets the UI and info-panel flags to
visible (charts unchanged); every key whose lowercase form is none of these
leaves all three flags unchanged. -/
theorem handleKeyPress_spec (key : String) (f : UIFlags) :
    (jsToLower key = "h" →
        handleKeyPress key f = { f with showUI := !f.showUI }) ∧
    (jsToLower key = "t" →
        handleKeyPress key f = { f with showTimeSeries := !f.showTimeSeries }) ∧
    (jsToLower key = "i" →
        handleKeyPress key f = { f with showInfoPanel := !f.showInfoPanel }) ∧
    (jsToLower key = "escape" →
        handleKeyPress key f = { f with showUI := true, showInfoPanel := true }) ∧
    (jsToLower key ∉ (["h", "t", "i", "escape"] : List String) →
        handleKeyPress key f = f) := by
  refine ⟨?_, ?_, ?_, ?_, ?_⟩ <;> intro hk <;>
    simp_all [handleKeyPress]

/-- Witness for the amended claim C8 at concrete keys: `"H"`, `"T"`, `"I"`,
`"Escape"` and the unbound key `"q"`. -/
theorem handleKeyPress_spec_witness :
    handleKeyPress "H" ⟨true, true, true⟩ = ⟨false, true, true⟩ ∧
    handleKeyPress "T" ⟨true, true, true⟩ = ⟨true, false, true⟩ ∧
    handleKeyPress "I" ⟨true, true, true⟩ = ⟨true, true, false⟩ ∧
    handleKeyPress "Escape" ⟨false, false, false⟩ = ⟨true, false, true⟩ ∧
    handleKeyPress "q" ⟨true, false, true⟩ = ⟨true, false, true⟩ :=
  ⟨(handleKeyPress_spec "H" ⟨true, true, true⟩).1 (by decide),
   (handleKeyPress_spec "T" ⟨true, true, true⟩).2.1 (by decide),
   (handleKeyPress_spec "I" ⟨true, true, true⟩).2.2.1 (by decide),
   (handleKeyPress_spec "Escape" ⟨false, false, false⟩).2.2.2.1 (by decide),
   (handleKeyPress_spec "q" ⟨true, false, true⟩).2.2.2.2 (by decide)⟩

end F1Spec
